import Mathlib

/-!
Shallow embedding of the Image Identification & Credit-Attribution Detection
Engine of the `creditcheckerlive` repository.

The embedding follows the Python source:
* `src/library/credit_checker.py` — keyword matcher and text-source scans,
* `src/library/keywords.py` — the static dictionary `CREDIT_KEYWORDS`,
* `src/library/image_utils.py` — perceptual hashes, hamming distance,
  parallel similarity batch,
* `src/library/ocr.py` — the OCR credit check,
* `src/checker.py` — the `check_image_credits` pipeline.

Browser, network and OCR collaborators are modelled as environment records
holding the plain data they would deliver (decoded pixel grids, extracted
text fragments); the control flow acting on that data is translated
statement by statement from the source.
-/

set_option maxHeartbeats 4000000
set_option maxRecDepth 16000

/-! ### Keyword matcher (`credit_checker.matches_keyword_with_word_boundary`)

The Python function builds the regex `\b<escaped keyword>\b` and runs
`re.search` with `IGNORECASE` on Unicode strings.  CPython's regex engine
(Python 3.11, the runtime of this repository) gives these semantics,
reproduced here from the engine's own Unicode tables:
* `\w` holds of a code point iff it is Unicode-alphanumeric or an
  underscore (`SRE_UNI_IS_WORD`); `uniWordRanges` lists exactly these code
  points as inclusive ranges.
* `\b` holds at a position iff exactly one of the two surrounding
  characters is a word character, positions outside the string counting
  as non-word.
* a pattern literal (lowered at compile time with `_sre.unicode_tolower`)
  matches a text character `ch` iff `unicode_tolower(ch)` equals the
  lowered literal or lies in the engine's extra-equivalence list for it
  (`re._casefix._EXTRA_CASES`).  `sreLowerTable` lists the code points
  moved by `unicode_tolower`; all others map to themselves. -/

def uniWordRanges : List (Nat × Nat) := [
  (48, 57), (65, 90), (95, 95), (97, 122), (170, 170), (178, 179),
  (181, 181), (185, 186), (188, 190), (192, 214), (216, 246), (248, 705),
  (710, 721), (736, 740), (748, 748), (750, 750), (880, 884), (886, 887),
  (890, 893), (895, 895), (902, 902), (904, 906), (908, 908), (910, 929),
  (931, 1013), (1015, 1153), (1162, 1327), (1329, 1366), (1369, 1369), (1376, 1416),
  (1488, 1514), (1519, 1522), (1568, 1610), (1632, 1641), (1646, 1647), (1649, 1747),
  (1749, 1749), (1765, 1766), (1774, 1788), (1791, 1791), (1808, 1808), (1810, 1839),
  (1869, 1957), (1969, 1969), (1984, 2026), (2036, 2037), (2042, 2042), (2048, 2069),
  (2074, 2074), (2084, 2084), (2088, 2088), (2112, 2136), (2144, 2154), (2160, 2183),
  (2185, 2190), (2208, 2249), (2308, 2361), (2365, 2365), (2384, 2384), (2392, 2401),
  (2406, 2415), (2417, 2432), (2437, 2444), (2447, 2448), (2451, 2472), (2474, 2480),
  (2482, 2482), (2486, 2489), (2493, 2493), (2510, 2510), (2524, 2525), (2527, 2529),
  (2534, 2545), (2548, 2553), (2556, 2556), (2565, 2570), (2575, 2576), (2579, 2600),
  (2602, 2608), (2610, 2611), (2613, 2614), (2616, 2617), (2649, 2652), (2654, 2654),
  (2662, 2671), (2674, 2676), (2693, 2701), (2703, 2705), (2707, 2728), (2730, 2736),
  (2738, 2739), (2741, 2745), (2749, 2749), (2768, 2768), (2784, 2785), (2790, 2799),
  (2809, 2809), (2821, 2828), (2831, 2832), (2835, 2856), (2858, 2864), (2866, 2867),
  (2869, 2873), (2877, 2877), (2908, 2909), (2911, 2913), (2918, 2927), (2929, 2935),
  (2947, 2947), (2949, 2954), (2958, 2960), (2962, 2965), (2969, 2970), (2972, 2972),
  (2974, 2975), (2979, 2980), (2984, 2986), (2990, 3001), (3024, 3024), (3046, 3058),
  (3077, 3084), (3086, 3088), (3090, 3112), (3114, 3129), (3133, 3133), (3160, 3162),
  (3165, 3165), (3168, 3169), (3174, 3183), (3192, 3198), (3200, 3200), (3205, 3212),
  (3214, 3216), (3218, 3240), (3242, 3251), (3253, 3257), (3261, 3261), (3293, 3294),
  (3296, 3297), (3302, 3311), (3313, 3314), (3332, 3340), (3342, 3344), (3346, 3386),
  (3389, 3389), (3406, 3406), (3412, 3414), (3416, 3425), (3430, 3448), (3450, 3455),
  (3461, 3478), (3482, 3505), (3507, 3515), (3517, 3517), (3520, 3526), (3558, 3567),
  (3585, 3632), (3634, 3635), (3648, 3654), (3664, 3673), (3713, 3714), (3716, 3716),
  (3718, 3722), (3724, 3747), (3749, 3749), (3751, 3760), (3762, 3763), (3773, 3773),
  (3776, 3780), (3782, 3782), (3792, 3801), (3804, 3807), (3840, 3840), (3872, 3891),
  (3904, 3911), (3913, 3948), (3976, 3980), (4096, 4138), (4159, 4169), (4176, 4181),
  (4186, 4189), (4193, 4193), (4197, 4198), (4206, 4208), (4213, 4225), (4238, 4238),
  (4240, 4249), (4256, 4293), (4295, 4295), (4301, 4301), (4304, 4346), (4348, 4680),
  (4682, 4685), (4688, 4694), (4696, 4696), (4698, 4701), (4704, 4744), (4746, 4749),
  (4752, 4784), (4786, 4789), (4792, 4798), (4800, 4800), (4802, 4805), (4808, 4822),
  (4824, 4880), (4882, 4885), (4888, 4954), (4969, 4988), (4992, 5007), (5024, 5109),
  (5112, 5117), (5121, 5740), (5743, 5759), (5761, 5786), (5792, 5866), (5870, 5880),
  (5888, 5905), (5919, 5937), (5952, 5969), (5984, 5996), (5998, 6000), (6016, 6067),
  (6103, 6103), (6108, 6108), (6112, 6121), (6128, 6137), (6160, 6169), (6176, 6264),
  (6272, 6276), (6279, 6312), (6314, 6314), (6320, 6389), (6400, 6430), (6470, 6509),
  (6512, 6516), (6528, 6571), (6576, 6601), (6608, 6618), (6656, 6678), (6688, 6740),
  (6784, 6793), (6800, 6809), (6823, 6823), (6917, 6963), (6981, 6988), (6992, 7001),
  (7043, 7072), (7086, 7141), (7168, 7203), (7232, 7241), (7245, 7293), (7296, 7304),
  (7312, 7354), (7357, 7359), (7401, 7404), (7406, 7411), (7413, 7414), (7418, 7418),
  (7424, 7615), (7680, 7957), (7960, 7965), (7968, 8005), (8008, 8013), (8016, 8023),
  (8025, 8025), (8027, 8027), (8029, 8029), (8031, 8061), (8064, 8116), (8118, 8124),
  (8126, 8126), (8130, 8132), (8134, 8140), (8144, 8147), (8150, 8155), (8160, 8172),
  (8178, 8180), (8182, 8188), (8304, 8305), (8308, 8313), (8319, 8329), (8336, 8348),
  (8450, 8450), (8455, 8455), (8458, 8467), (8469, 8469), (8473, 8477), (8484, 8484),
  (8486, 8486), (8488, 8488), (8490, 8493), (8495, 8505), (8508, 8511), (8517, 8521),
  (8526, 8526), (8528, 8585), (9312, 9371), (9450, 9471), (10102, 10131), (11264, 11492),
  (11499, 11502), (11506, 11507), (11517, 11517), (11520, 11557), (11559, 11559), (11565, 11565),
  (11568, 11623), (11631, 11631), (11648, 11670), (11680, 11686), (11688, 11694), (11696, 11702),
  (11704, 11710), (11712, 11718), (11720, 11726), (11728, 11734), (11736, 11742), (11823, 11823),
  (12293, 12295), (12321, 12329), (12337, 12341), (12344, 12348), (12353, 12438), (12445, 12447),
  (12449, 12538), (12540, 12543), (12549, 12591), (12593, 12686), (12690, 12693), (12704, 12735),
  (12784, 12799), (12832, 12841), (12872, 12879), (12881, 12895), (12928, 12937), (12977, 12991),
  (13312, 19903), (19968, 42124), (42192, 42237), (42240, 42508), (42512, 42539), (42560, 42606),
  (42623, 42653), (42656, 42735), (42775, 42783), (42786, 42888), (42891, 42954), (42960, 42961),
  (42963, 42963), (42965, 42969), (42994, 43009), (43011, 43013), (43015, 43018), (43020, 43042),
  (43056, 43061), (43072, 43123), (43138, 43187), (43216, 43225), (43250, 43255), (43259, 43259),
  (43261, 43262), (43264, 43301), (43312, 43334), (43360, 43388), (43396, 43442), (43471, 43481),
  (43488, 43492), (43494, 43518), (43520, 43560), (43584, 43586), (43588, 43595), (43600, 43609),
  (43616, 43638), (43642, 43642), (43646, 43695), (43697, 43697), (43701, 43702), (43705, 43709),
  (43712, 43712), (43714, 43714), (43739, 43741), (43744, 43754), (43762, 43764), (43777, 43782),
  (43785, 43790), (43793, 43798), (43808, 43814), (43816, 43822), (43824, 43866), (43868, 43881),
  (43888, 44002), (44016, 44025), (44032, 55203), (55216, 55238), (55243, 55291), (63744, 64109),
  (64112, 64217), (64256, 64262), (64275, 64279), (64285, 64285), (64287, 64296), (64298, 64310),
  (64312, 64316), (64318, 64318), (64320, 64321), (64323, 64324), (64326, 64433), (64467, 64829),
  (64848, 64911), (64914, 64967), (65008, 65019), (65136, 65140), (65142, 65276), (65296, 65305),
  (65313, 65338), (65345, 65370), (65382, 65470), (65474, 65479), (65482, 65487), (65490, 65495),
  (65498, 65500), (65536, 65547), (65549, 65574), (65576, 65594), (65596, 65597), (65599, 65613),
  (65616, 65629), (65664, 65786), (65799, 65843), (65856, 65912), (65930, 65931), (66176, 66204),
  (66208, 66256), (66273, 66299), (66304, 66339), (66349, 66378), (66384, 66421), (66432, 66461),
  (66464, 66499), (66504, 66511), (66513, 66517), (66560, 66717), (66720, 66729), (66736, 66771),
  (66776, 66811), (66816, 66855), (66864, 66915), (66928, 66938), (66940, 66954), (66956, 66962),
  (66964, 66965), (66967, 66977), (66979, 66993), (66995, 67001), (67003, 67004), (67072, 67382),
  (67392, 67413), (67424, 67431), (67456, 67461), (67463, 67504), (67506, 67514), (67584, 67589),
  (67592, 67592), (67594, 67637), (67639, 67640), (67644, 67644), (67647, 67669), (67672, 67702),
  (67705, 67742), (67751, 67759), (67808, 67826), (67828, 67829), (67835, 67867), (67872, 67897),
  (67968, 68023), (68028, 68047), (68050, 68096), (68112, 68115), (68117, 68119), (68121, 68149),
  (68160, 68168), (68192, 68222), (68224, 68255), (68288, 68295), (68297, 68324), (68331, 68335),
  (68352, 68405), (68416, 68437), (68440, 68466), (68472, 68497), (68521, 68527), (68608, 68680),
  (68736, 68786), (68800, 68850), (68858, 68899), (68912, 68921), (69216, 69246), (69248, 69289),
  (69296, 69297), (69376, 69415), (69424, 69445), (69457, 69460), (69488, 69505), (69552, 69579),
  (69600, 69622), (69635, 69687), (69714, 69743), (69745, 69746), (69749, 69749), (69763, 69807),
  (69840, 69864), (69872, 69881), (69891, 69926), (69942, 69951), (69956, 69956), (69959, 69959),
  (69968, 70002), (70006, 70006), (70019, 70066), (70081, 70084), (70096, 70106), (70108, 70108),
  (70113, 70132), (70144, 70161), (70163, 70187), (70272, 70278), (70280, 70280), (70282, 70285),
  (70287, 70301), (70303, 70312), (70320, 70366), (70384, 70393), (70405, 70412), (70415, 70416),
  (70419, 70440), (70442, 70448), (70450, 70451), (70453, 70457), (70461, 70461), (70480, 70480),
  (70493, 70497), (70656, 70708), (70727, 70730), (70736, 70745), (70751, 70753), (70784, 70831),
  (70852, 70853), (70855, 70855), (70864, 70873), (71040, 71086), (71128, 71131), (71168, 71215),
  (71236, 71236), (71248, 71257), (71296, 71338), (71352, 71352), (71360, 71369), (71424, 71450),
  (71472, 71483), (71488, 71494), (71680, 71723), (71840, 71922), (71935, 71942), (71945, 71945),
  (71948, 71955), (71957, 71958), (71960, 71983), (71999, 71999), (72001, 72001), (72016, 72025),
  (72096, 72103), (72106, 72144), (72161, 72161), (72163, 72163), (72192, 72192), (72203, 72242),
  (72250, 72250), (72272, 72272), (72284, 72329), (72349, 72349), (72368, 72440), (72704, 72712),
  (72714, 72750), (72768, 72768), (72784, 72812), (72818, 72847), (72960, 72966), (72968, 72969),
  (72971, 73008), (73030, 73030), (73040, 73049), (73056, 73061), (73063, 73064), (73066, 73097),
  (73112, 73112), (73120, 73129), (73440, 73458), (73648, 73648), (73664, 73684), (73728, 74649),
  (74752, 74862), (74880, 75075), (77712, 77808), (77824, 78894), (82944, 83526), (92160, 92728),
  (92736, 92766), (92768, 92777), (92784, 92862), (92864, 92873), (92880, 92909), (92928, 92975),
  (92992, 92995), (93008, 93017), (93019, 93025), (93027, 93047), (93053, 93071), (93760, 93846),
  (93952, 94026), (94032, 94032), (94099, 94111), (94176, 94177), (94179, 94179), (94208, 100343),
  (100352, 101589), (101632, 101640), (110576, 110579), (110581, 110587), (110589, 110590), (110592, 110882),
  (110928, 110930), (110948, 110951), (110960, 111355), (113664, 113770), (113776, 113788), (113792, 113800),
  (113808, 113817), (119520, 119539), (119648, 119672), (119808, 119892), (119894, 119964), (119966, 119967),
  (119970, 119970), (119973, 119974), (119977, 119980), (119982, 119993), (119995, 119995), (119997, 120003),
  (120005, 120069), (120071, 120074), (120077, 120084), (120086, 120092), (120094, 120121), (120123, 120126),
  (120128, 120132), (120134, 120134), (120138, 120144), (120146, 120485), (120488, 120512), (120514, 120538),
  (120540, 120570), (120572, 120596), (120598, 120628), (120630, 120654), (120656, 120686), (120688, 120712),
  (120714, 120744), (120746, 120770), (120772, 120779), (120782, 120831), (122624, 122654), (123136, 123180),
  (123191, 123197), (123200, 123209), (123214, 123214), (123536, 123565), (123584, 123627), (123632, 123641),
  (124896, 124902), (124904, 124907), (124909, 124910), (124912, 124926), (124928, 125124), (125127, 125135),
  (125184, 125251), (125259, 125259), (125264, 125273), (126065, 126123), (126125, 126127), (126129, 126132),
  (126209, 126253), (126255, 126269), (126464, 126467), (126469, 126495), (126497, 126498), (126500, 126500),
  (126503, 126503), (126505, 126514), (126516, 126519), (126521, 126521), (126523, 126523), (126530, 126530),
  (126535, 126535), (126537, 126537), (126539, 126539), (126541, 126543), (126545, 126546), (126548, 126548),
  (126551, 126551), (126553, 126553), (126555, 126555), (126557, 126557), (126559, 126559), (126561, 126562),
  (126564, 126564), (126567, 126570), (126572, 126578), (126580, 126583), (126585, 126588), (126590, 126590),
  (126592, 126601), (126603, 126619), (126625, 126627), (126629, 126633), (126635, 126651), (127232, 127244),
  (130032, 130041), (131072, 173791), (173824, 177976), (177984, 178205), (178208, 183969), (183984, 191456),
  (194560, 195101), (196608, 201546)]

def sreLowerTable : List (Nat × Nat) := [
  (65, 97), (66, 98), (67, 99), (68, 100), (69, 101), (70, 102),
  (71, 103), (72, 104), (73, 105), (74, 106), (75, 107), (76, 108),
  (77, 109), (78, 110), (79, 111), (80, 112), (81, 113), (82, 114),
  (83, 115), (84, 116), (85, 117), (86, 118), (87, 119), (88, 120),
  (89, 121), (90, 122), (192, 224), (193, 225), (194, 226), (195, 227),
  (196, 228), (197, 229), (198, 230), (199, 231), (200, 232), (201, 233),
  (202, 234), (203, 235), (204, 236), (205, 237), (206, 238), (207, 239),
  (208, 240), (209, 241), (210, 242), (211, 243), (212, 244), (213, 245),
  (214, 246), (216, 248), (217, 249), (218, 250), (219, 251), (220, 252),
  (221, 253), (222, 254), (256, 257), (258, 259), (260, 261), (262, 263),
  (264, 265), (266, 267), (268, 269), (270, 271), (272, 273), (274, 275),
  (276, 277), (278, 279), (280, 281), (282, 283), (284, 285), (286, 287),
  (288, 289), (290, 291), (292, 293), (294, 295), (296, 297), (298, 299),
  (300, 301), (302, 303), (304, 105), (306, 307), (308, 309), (310, 311),
  (313, 314), (315, 316), (317, 318), (319, 320), (321, 322), (323, 324),
  (325, 326), (327, 328), (330, 331), (332, 333), (334, 335), (336, 337),
  (338, 339), (340, 341), (342, 343), (344, 345), (346, 347), (348, 349),
  (350, 351), (352, 353), (354, 355), (356, 357), (358, 359), (360, 361),
  (362, 363), (364, 365), (366, 367), (368, 369), (370, 371), (372, 373),
  (374, 375), (376, 255), (377, 378), (379, 380), (381, 382), (385, 595),
  (386, 387), (388, 389), (390, 596), (391, 392), (393, 598), (394, 599),
  (395, 396), (398, 477), (399, 601), (400, 603), (401, 402), (403, 608),
  (404, 611), (406, 617), (407, 616), (408, 409), (412, 623), (413, 626),
  (415, 629), (416, 417), (418, 419), (420, 421), (422, 640), (423, 424),
  (425, 643), (428, 429), (430, 648), (431, 432), (433, 650), (434, 651),
  (435, 436), (437, 438), (439, 658), (440, 441), (444, 445), (452, 454),
  (453, 454), (455, 457), (456, 457), (458, 460), (459, 460), (461, 462),
  (463, 464), (465, 466), (467, 468), (469, 470), (471, 472), (473, 474),
  (475, 476), (478, 479), (480, 481), (482, 483), (484, 485), (486, 487),
  (488, 489), (490, 491), (492, 493), (494, 495), (497, 499), (498, 499),
  (500, 501), (502, 405), (503, 447), (504, 505), (506, 507), (508, 509),
  (510, 511), (512, 513), (514, 515), (516, 517), (518, 519), (520, 521),
  (522, 523), (524, 525), (526, 527), (528, 529), (530, 531), (532, 533),
  (534, 535), (536, 537), (538, 539), (540, 541), (542, 543), (544, 414),
  (546, 547), (548, 549), (550, 551), (552, 553), (554, 555), (556, 557),
  (558, 559), (560, 561), (562, 563), (570, 11365), (571, 572), (573, 410),
  (574, 11366), (577, 578), (579, 384), (580, 649), (581, 652), (582, 583),
  (584, 585), (586, 587), (588, 589), (590, 591), (880, 881), (882, 883),
  (886, 887), (895, 1011), (902, 940), (904, 941), (905, 942), (906, 943),
  (908, 972), (910, 973), (911, 974), (913, 945), (914, 946), (915, 947),
  (916, 948), (917, 949), (918, 950), (919, 951), (920, 952), (921, 953),
  (922, 954), (923, 955), (924, 956), (925, 957), (926, 958), (927, 959),
  (928, 960), (929, 961), (931, 963), (932, 964), (933, 965), (934, 966),
  (935, 967), (936, 968), (937, 969), (938, 970), (939, 971), (975, 983),
  (984, 985), (986, 987), (988, 989), (990, 991), (992, 993), (994, 995),
  (996, 997), (998, 999), (1000, 1001), (1002, 1003), (1004, 1005), (1006, 1007),
  (1012, 952), (1015, 1016), (1017, 1010), (1018, 1019), (1021, 891), (1022, 892),
  (1023, 893), (1024, 1104), (1025, 1105), (1026, 1106), (1027, 1107), (1028, 1108),
  (1029, 1109), (1030, 1110), (1031, 1111), (1032, 1112), (1033, 1113), (1034, 1114),
  (1035, 1115), (1036, 1116), (1037, 1117), (1038, 1118), (1039, 1119), (1040, 1072),
  (1041, 1073), (1042, 1074), (1043, 1075), (1044, 1076), (1045, 1077), (1046, 1078),
  (1047, 1079), (1048, 1080), (1049, 1081), (1050, 1082), (1051, 1083), (1052, 1084),
  (1053, 1085), (1054, 1086), (1055, 1087), (1056, 1088), (1057, 1089), (1058, 1090),
  (1059, 1091), (1060, 1092), (1061, 1093), (1062, 1094), (1063, 1095), (1064, 1096),
  (1065, 1097), (1066, 1098), (1067, 1099), (1068, 1100), (1069, 1101), (1070, 1102),
  (1071, 1103), (1120, 1121), (1122, 1123), (1124, 1125), (1126, 1127), (1128, 1129),
  (1130, 1131), (1132, 1133), (1134, 1135), (1136, 1137), (1138, 1139), (1140, 1141),
  (1142, 1143), (1144, 1145), (1146, 1147), (1148, 1149), (1150, 1151), (1152, 1153),
  (1162, 1163), (1164, 1165), (1166, 1167), (1168, 1169), (1170, 1171), (1172, 1173),
  (1174, 1175), (1176, 1177), (1178, 1179), (1180, 1181), (1182, 1183), (1184, 1185),
  (1186, 1187), (1188, 1189), (1190, 1191), (1192, 1193), (1194, 1195), (1196, 1197),
  (1198, 1199), (1200, 1201), (1202, 1203), (1204, 1205), (1206, 1207), (1208, 1209),
  (1210, 1211), (1212, 1213), (1214, 1215), (1216, 1231), (1217, 1218), (1219, 1220),
  (1221, 1222), (1223, 1224), (1225, 1226), (1227, 1228), (1229, 1230), (1232, 1233),
  (1234, 1235), (1236, 1237), (1238, 1239), (1240, 1241), (1242, 1243), (1244, 1245),
  (1246, 1247), (1248, 1249), (1250, 1251), (1252, 1253), (1254, 1255), (1256, 1257),
  (1258, 1259), (1260, 1261), (1262, 1263), (1264, 1265), (1266, 1267), (1268, 1269),
  (1270, 1271), (1272, 1273), (1274, 1275), (1276, 1277), (1278, 1279), (1280, 1281),
  (1282, 1283), (1284, 1285), (1286, 1287), (1288, 1289), (1290, 1291), (1292, 1293),
  (1294, 1295), (1296, 1297), (1298, 1299), (1300, 1301), (1302, 1303), (1304, 1305),
  (1306, 1307), (1308, 1309), (1310, 1311), (1312, 1313), (1314, 1315), (1316, 1317),
  (1318, 1319), (1320, 1321), (1322, 1323), (1324, 1325), (1326, 1327), (1329, 1377),
  (1330, 1378), (1331, 1379), (1332, 1380), (1333, 1381), (1334, 1382), (1335, 1383),
  (1336, 1384), (1337, 1385), (1338, 1386), (1339, 1387), (1340, 1388), (1341, 1389),
  (1342, 1390), (1343, 1391), (1344, 1392), (1345, 1393), (1346, 1394), (1347, 1395),
  (1348, 1396), (1349, 1397), (1350, 1398), (1351, 1399), (1352, 1400), (1353, 1401),
  (1354, 1402), (1355, 1403), (1356, 1404), (1357, 1405), (1358, 1406), (1359, 1407),
  (1360, 1408), (1361, 1409), (1362, 1410), (1363, 1411), (1364, 1412), (1365, 1413),
  (1366, 1414), (4256, 11520), (4257, 11521), (4258, 11522), (4259, 11523), (4260, 11524),
  (4261, 11525), (4262, 11526), (4263, 11527), (4264, 11528), (4265, 11529), (4266, 11530),
  (4267, 11531), (4268, 11532), (4269, 11533), (4270, 11534), (4271, 11535), (4272, 11536),
  (4273, 11537), (4274, 11538), (4275, 11539), (4276, 11540), (4277, 11541), (4278, 11542),
  (4279, 11543), (4280, 11544), (4281, 11545), (4282, 11546), (4283, 11547), (4284, 11548),
  (4285, 11549), (4286, 11550), (4287, 11551), (4288, 11552), (4289, 11553), (4290, 11554),
  (4291, 11555), (4292, 11556), (4293, 11557), (4295, 11559), (4301, 11565), (5024, 43888),
  (5025, 43889), (5026, 43890), (5027, 43891), (5028, 43892), (5029, 43893), (5030, 43894),
  (5031, 43895), (5032, 43896), (5033, 43897), (5034, 43898), (5035, 43899), (5036, 43900),
  (5037, 43901), (5038, 43902), (5039, 43903), (5040, 43904), (5041, 43905), (5042, 43906),
  (5043, 43907), (5044, 43908), (5045, 43909), (5046, 43910), (5047, 43911), (5048, 43912),
  (5049, 43913), (5050, 43914), (5051, 43915), (5052, 43916), (5053, 43917), (5054, 43918),
  (5055, 43919), (5056, 43920), (5057, 43921), (5058, 43922), (5059, 43923), (5060, 43924),
  (5061, 43925), (5062, 43926), (5063, 43927), (5064, 43928), (5065, 43929), (5066, 43930),
  (5067, 43931), (5068, 43932), (5069, 43933), (5070, 43934), (5071, 43935), (5072, 43936),
  (5073, 43937), (5074, 43938), (5075, 43939), (5076, 43940), (5077, 43941), (5078, 43942),
  (5079, 43943), (5080, 43944), (5081, 43945), (5082, 43946), (5083, 43947), (5084, 43948),
  (5085, 43949), (5086, 43950), (5087, 43951), (5088, 43952), (5089, 43953), (5090, 43954),
  (5091, 43955), (5092, 43956), (5093, 43957), (5094, 43958), (5095, 43959), (5096, 43960),
  (5097, 43961), (5098, 43962), (5099, 43963), (5100, 43964), (5101, 43965), (5102, 43966),
  (5103, 43967), (5104, 5112), (5105, 5113), (5106, 5114), (5107, 5115), (5108, 5116),
  (5109, 5117), (7312, 4304), (7313, 4305), (7314, 4306), (7315, 4307), (7316, 4308),
  (7317, 4309), (7318, 4310), (7319, 4311), (7320, 4312), (7321, 4313), (7322, 4314),
  (7323, 4315), (7324, 4316), (7325, 4317), (7326, 4318), (7327, 4319), (7328, 4320),
  (7329, 4321), (7330, 4322), (7331, 4323), (7332, 4324), (7333, 4325), (7334, 4326),
  (7335, 4327), (7336, 4328), (7337, 4329), (7338, 4330), (7339, 4331), (7340, 4332),
  (7341, 4333), (7342, 4334), (7343, 4335), (7344, 4336), (7345, 4337), (7346, 4338),
  (7347, 4339), (7348, 4340), (7349, 4341), (7350, 4342), (7351, 4343), (7352, 4344),
  (7353, 4345), (7354, 4346), (7357, 4349), (7358, 4350), (7359, 4351), (7680, 7681),
  (7682, 7683), (7684, 7685), (7686, 7687), (7688, 7689), (7690, 7691), (7692, 7693),
  (7694, 7695), (7696, 7697), (7698, 7699), (7700, 7701), (7702, 7703), (7704, 7705),
  (7706, 7707), (7708, 7709), (7710, 7711), (7712, 7713), (7714, 7715), (7716, 7717),
  (7718, 7719), (7720, 7721), (7722, 7723), (7724, 7725), (7726, 7727), (7728, 7729),
  (7730, 7731), (7732, 7733), (7734, 7735), (7736, 7737), (7738, 7739), (7740, 7741),
  (7742, 7743), (7744, 7745), (7746, 7747), (7748, 7749), (7750, 7751), (7752, 7753),
  (7754, 7755), (7756, 7757), (7758, 7759), (7760, 7761), (7762, 7763), (7764, 7765),
  (7766, 7767), (7768, 7769), (7770, 7771), (7772, 7773), (7774, 7775), (7776, 7777),
  (7778, 7779), (7780, 7781), (7782, 7783), (7784, 7785), (7786, 7787), (7788, 7789),
  (7790, 7791), (7792, 7793), (7794, 7795), (7796, 7797), (7798, 7799), (7800, 7801),
  (7802, 7803), (7804, 7805), (7806, 7807), (7808, 7809), (7810, 7811), (7812, 7813),
  (7814, 7815), (7816, 7817), (7818, 7819), (7820, 7821), (7822, 7823), (7824, 7825),
  (7826, 7827), (7828, 7829), (7838, 223), (7840, 7841), (7842, 7843), (7844, 7845),
  (7846, 7847), (7848, 7849), (7850, 7851), (7852, 7853), (7854, 7855), (7856, 7857),
  (7858, 7859), (7860, 7861), (7862, 7863), (7864, 7865), (7866, 7867), (7868, 7869),
  (7870, 7871), (7872, 7873), (7874, 7875), (7876, 7877), (7878, 7879), (7880, 7881),
  (7882, 7883), (7884, 7885), (7886, 7887), (7888, 7889), (7890, 7891), (7892, 7893),
  (7894, 7895), (7896, 7897), (7898, 7899), (7900, 7901), (7902, 7903), (7904, 7905),
  (7906, 7907), (7908, 7909), (7910, 7911), (7912, 7913), (7914, 7915), (7916, 7917),
  (7918, 7919), (7920, 7921), (7922, 7923), (7924, 7925), (7926, 7927), (7928, 7929),
  (7930, 7931), (7932, 7933), (7934, 7935), (7944, 7936), (7945, 7937), (7946, 7938),
  (7947, 7939), (7948, 7940), (7949, 7941), (7950, 7942), (7951, 7943), (7960, 7952),
  (7961, 7953), (7962, 7954), (7963, 7955), (7964, 7956), (7965, 7957), (7976, 7968),
  (7977, 7969), (7978, 7970), (7979, 7971), (7980, 7972), (7981, 7973), (7982, 7974),
  (7983, 7975), (7992, 7984), (7993, 7985), (7994, 7986), (7995, 7987), (7996, 7988),
  (7997, 7989), (7998, 7990), (7999, 7991), (8008, 8000), (8009, 8001), (8010, 8002),
  (8011, 8003), (8012, 8004), (8013, 8005), (8025, 8017), (8027, 8019), (8029, 8021),
  (8031, 8023), (8040, 8032), (8041, 8033), (8042, 8034), (8043, 8035), (8044, 8036),
  (8045, 8037), (8046, 8038), (8047, 8039), (8072, 8064), (8073, 8065), (8074, 8066),
  (8075, 8067), (8076, 8068), (8077, 8069), (8078, 8070), (8079, 8071), (8088, 8080),
  (8089, 8081), (8090, 8082), (8091, 8083), (8092, 8084), (8093, 8085), (8094, 8086),
  (8095, 8087), (8104, 8096), (8105, 8097), (8106, 8098), (8107, 8099), (8108, 8100),
  (8109, 8101), (8110, 8102), (8111, 8103), (8120, 8112), (8121, 8113), (8122, 8048),
  (8123, 8049), (8124, 8115), (8136, 8050), (8137, 8051), (8138, 8052), (8139, 8053),
  (8140, 8131), (8152, 8144), (8153, 8145), (8154, 8054), (8155, 8055), (8168, 8160),
  (8169, 8161), (8170, 8058), (8171, 8059), (8172, 8165), (8184, 8056), (8185, 8057),
  (8186, 8060), (8187, 8061), (8188, 8179), (8486, 969), (8490, 107), (8491, 229),
  (8498, 8526), (8544, 8560), (8545, 8561), (8546, 8562), (8547, 8563), (8548, 8564),
  (8549, 8565), (8550, 8566), (8551, 8567), (8552, 8568), (8553, 8569), (8554, 8570),
  (8555, 8571), (8556, 8572), (8557, 8573), (8558, 8574), (8559, 8575), (8579, 8580),
  (9398, 9424), (9399, 9425), (9400, 9426), (9401, 9427), (9402, 9428), (9403, 9429),
  (9404, 9430), (9405, 9431), (9406, 9432), (9407, 9433), (9408, 9434), (9409, 9435),
  (9410, 9436), (9411, 9437), (9412, 9438), (9413, 9439), (9414, 9440), (9415, 9441),
  (9416, 9442), (9417, 9443), (9418, 9444), (9419, 9445), (9420, 9446), (9421, 9447),
  (9422, 9448), (9423, 9449), (11264, 11312), (11265, 11313), (11266, 11314), (11267, 11315),
  (11268, 11316), (11269, 11317), (11270, 11318), (11271, 11319), (11272, 11320), (11273, 11321),
  (11274, 11322), (11275, 11323), (11276, 11324), (11277, 11325), (11278, 11326), (11279, 11327),
  (11280, 11328), (11281, 11329), (11282, 11330), (11283, 11331), (11284, 11332), (11285, 11333),
  (11286, 11334), (11287, 11335), (11288, 11336), (11289, 11337), (11290, 11338), (11291, 11339),
  (11292, 11340), (11293, 11341), (11294, 11342), (11295, 11343), (11296, 11344), (11297, 11345),
  (11298, 11346), (11299, 11347), (11300, 11348), (11301, 11349), (11302, 11350), (11303, 11351),
  (11304, 11352), (11305, 11353), (11306, 11354), (11307, 11355), (11308, 11356), (11309, 11357),
  (11310, 11358), (11311, 11359), (11360, 11361), (11362, 619), (11363, 7549), (11364, 637),
  (11367, 11368), (11369, 11370), (11371, 11372), (11373, 593), (11374, 625), (11375, 592),
  (11376, 594), (11378, 11379), (11381, 11382), (11390, 575), (11391, 576), (11392, 11393),
  (11394, 11395), (11396, 11397), (11398, 11399), (11400, 11401), (11402, 11403), (11404, 11405),
  (11406, 11407), (11408, 11409), (11410, 11411), (11412, 11413), (11414, 11415), (11416, 11417),
  (11418, 11419), (11420, 11421), (11422, 11423), (11424, 11425), (11426, 11427), (11428, 11429),
  (11430, 11431), (11432, 11433), (11434, 11435), (11436, 11437), (11438, 11439), (11440, 11441),
  (11442, 11443), (11444, 11445), (11446, 11447), (11448, 11449), (11450, 11451), (11452, 11453),
  (11454, 11455), (11456, 11457), (11458, 11459), (11460, 11461), (11462, 11463), (11464, 11465),
  (11466, 11467), (11468, 11469), (11470, 11471), (11472, 11473), (11474, 11475), (11476, 11477),
  (11478, 11479), (11480, 11481), (11482, 11483), (11484, 11485), (11486, 11487), (11488, 11489),
  (11490, 11491), (11499, 11500), (11501, 11502), (11506, 11507), (42560, 42561), (42562, 42563),
  (42564, 42565), (42566, 42567), (42568, 42569), (42570, 42571), (42572, 42573), (42574, 42575),
  (42576, 42577), (42578, 42579), (42580, 42581), (42582, 42583), (42584, 42585), (42586, 42587),
  (42588, 42589), (42590, 42591), (42592, 42593), (42594, 42595), (42596, 42597), (42598, 42599),
  (42600, 42601), (42602, 42603), (42604, 42605), (42624, 42625), (42626, 42627), (42628, 42629),
  (42630, 42631), (42632, 42633), (42634, 42635), (42636, 42637), (42638, 42639), (42640, 42641),
  (42642, 42643), (42644, 42645), (42646, 42647), (42648, 42649), (42650, 42651), (42786, 42787),
  (42788, 42789), (42790, 42791), (42792, 42793), (42794, 42795), (42796, 42797), (42798, 42799),
  (42802, 42803), (42804, 42805), (42806, 42807), (42808, 42809), (42810, 42811), (42812, 42813),
  (42814, 42815), (42816, 42817), (42818, 42819), (42820, 42821), (42822, 42823), (42824, 42825),
  (42826, 42827), (42828, 42829), (42830, 42831), (42832, 42833), (42834, 42835), (42836, 42837),
  (42838, 42839), (42840, 42841), (42842, 42843), (42844, 42845), (42846, 42847), (42848, 42849),
  (42850, 42851), (42852, 42853), (42854, 42855), (42856, 42857), (42858, 42859), (42860, 42861),
  (42862, 42863), (42873, 42874), (42875, 42876), (42877, 7545), (42878, 42879), (42880, 42881),
  (42882, 42883), (42884, 42885), (42886, 42887), (42891, 42892), (42893, 613), (42896, 42897),
  (42898, 42899), (42902, 42903), (42904, 42905), (42906, 42907), (42908, 42909), (42910, 42911),
  (42912, 42913), (42914, 42915), (42916, 42917), (42918, 42919), (42920, 42921), (42922, 614),
  (42923, 604), (42924, 609), (42925, 620), (42926, 618), (42928, 670), (42929, 647),
  (42930, 669), (42931, 43859), (42932, 42933), (42934, 42935), (42936, 42937), (42938, 42939),
  (42940, 42941), (42942, 42943), (42944, 42945), (42946, 42947), (42948, 42900), (42949, 642),
  (42950, 7566), (42951, 42952), (42953, 42954), (42960, 42961), (42966, 42967), (42968, 42969),
  (42997, 42998), (65313, 65345), (65314, 65346), (65315, 65347), (65316, 65348), (65317, 65349),
  (65318, 65350), (65319, 65351), (65320, 65352), (65321, 65353), (65322, 65354), (65323, 65355),
  (65324, 65356), (65325, 65357), (65326, 65358), (65327, 65359), (65328, 65360), (65329, 65361),
  (65330, 65362), (65331, 65363), (65332, 65364), (65333, 65365), (65334, 65366), (65335, 65367),
  (65336, 65368), (65337, 65369), (65338, 65370), (66560, 66600), (66561, 66601), (66562, 66602),
  (66563, 66603), (66564, 66604), (66565, 66605), (66566, 66606), (66567, 66607), (66568, 66608),
  (66569, 66609), (66570, 66610), (66571, 66611), (66572, 66612), (66573, 66613), (66574, 66614),
  (66575, 66615), (66576, 66616), (66577, 66617), (66578, 66618), (66579, 66619), (66580, 66620),
  (66581, 66621), (66582, 66622), (66583, 66623), (66584, 66624), (66585, 66625), (66586, 66626),
  (66587, 66627), (66588, 66628), (66589, 66629), (66590, 66630), (66591, 66631), (66592, 66632),
  (66593, 66633), (66594, 66634), (66595, 66635), (66596, 66636), (66597, 66637), (66598, 66638),
  (66599, 66639), (66736, 66776), (66737, 66777), (66738, 66778), (66739, 66779), (66740, 66780),
  (66741, 66781), (66742, 66782), (66743, 66783), (66744, 66784), (66745, 66785), (66746, 66786),
  (66747, 66787), (66748, 66788), (66749, 66789), (66750, 66790), (66751, 66791), (66752, 66792),
  (66753, 66793), (66754, 66794), (66755, 66795), (66756, 66796), (66757, 66797), (66758, 66798),
  (66759, 66799), (66760, 66800), (66761, 66801), (66762, 66802), (66763, 66803), (66764, 66804),
  (66765, 66805), (66766, 66806), (66767, 66807), (66768, 66808), (66769, 66809), (66770, 66810),
  (66771, 66811), (66928, 66967), (66929, 66968), (66930, 66969), (66931, 66970), (66932, 66971),
  (66933, 66972), (66934, 66973), (66935, 66974), (66936, 66975), (66937, 66976), (66938, 66977),
  (66940, 66979), (66941, 66980), (66942, 66981), (66943, 66982), (66944, 66983), (66945, 66984),
  (66946, 66985), (66947, 66986), (66948, 66987), (66949, 66988), (66950, 66989), (66951, 66990),
  (66952, 66991), (66953, 66992), (66954, 66993), (66956, 66995), (66957, 66996), (66958, 66997),
  (66959, 66998), (66960, 66999), (66961, 67000), (66962, 67001), (66964, 67003), (66965, 67004),
  (68736, 68800), (68737, 68801), (68738, 68802), (68739, 68803), (68740, 68804), (68741, 68805),
  (68742, 68806), (68743, 68807), (68744, 68808), (68745, 68809), (68746, 68810), (68747, 68811),
  (68748, 68812), (68749, 68813), (68750, 68814), (68751, 68815), (68752, 68816), (68753, 68817),
  (68754, 68818), (68755, 68819), (68756, 68820), (68757, 68821), (68758, 68822), (68759, 68823),
  (68760, 68824), (68761, 68825), (68762, 68826), (68763, 68827), (68764, 68828), (68765, 68829),
  (68766, 68830), (68767, 68831), (68768, 68832), (68769, 68833), (68770, 68834), (68771, 68835),
  (68772, 68836), (68773, 68837), (68774, 68838), (68775, 68839), (68776, 68840), (68777, 68841),
  (68778, 68842), (68779, 68843), (68780, 68844), (68781, 68845), (68782, 68846), (68783, 68847),
  (68784, 68848), (68785, 68849), (68786, 68850), (71840, 71872), (71841, 71873), (71842, 71874),
  (71843, 71875), (71844, 71876), (71845, 71877), (71846, 71878), (71847, 71879), (71848, 71880),
  (71849, 71881), (71850, 71882), (71851, 71883), (71852, 71884), (71853, 71885), (71854, 71886),
  (71855, 71887), (71856, 71888), (71857, 71889), (71858, 71890), (71859, 71891), (71860, 71892),
  (71861, 71893), (71862, 71894), (71863, 71895), (71864, 71896), (71865, 71897), (71866, 71898),
  (71867, 71899), (71868, 71900), (71869, 71901), (71870, 71902), (71871, 71903), (93760, 93792),
  (93761, 93793), (93762, 93794), (93763, 93795), (93764, 93796), (93765, 93797), (93766, 93798),
  (93767, 93799), (93768, 93800), (93769, 93801), (93770, 93802), (93771, 93803), (93772, 93804),
  (93773, 93805), (93774, 93806), (93775, 93807), (93776, 93808), (93777, 93809), (93778, 93810),
  (93779, 93811), (93780, 93812), (93781, 93813), (93782, 93814), (93783, 93815), (93784, 93816),
  (93785, 93817), (93786, 93818), (93787, 93819), (93788, 93820), (93789, 93821), (93790, 93822),
  (93791, 93823), (125184, 125218), (125185, 125219), (125186, 125220), (125187, 125221), (125188, 125222),
  (125189, 125223), (125190, 125224), (125191, 125225), (125192, 125226), (125193, 125227), (125194, 125228),
  (125195, 125229), (125196, 125230), (125197, 125231), (125198, 125232), (125199, 125233), (125200, 125234),
  (125201, 125235), (125202, 125236), (125203, 125237), (125204, 125238), (125205, 125239), (125206, 125240),
  (125207, 125241), (125208, 125242), (125209, 125243), (125210, 125244), (125211, 125245), (125212, 125246),
  (125213, 125247), (125214, 125248), (125215, 125249), (125216, 125250), (125217, 125251)]

def sreExtraCases : List (Nat × List Nat) := [
  (105, [305]), (115, [383]), (181, [956]), (305, [105]),
  (383, [115]), (837, [953, 8126]), (912, [8147]), (944, [8163]),
  (946, [976]), (949, [1013]), (952, [977]), (953, [837, 8126]),
  (954, [1008]), (956, [181]), (960, [982]), (961, [1009]),
  (962, [963]), (963, [962]), (966, [981]), (976, [946]),
  (977, [952]), (981, [966]), (982, [960]), (1008, [954]),
  (1009, [961]), (1013, [949]), (1074, [7296]), (1076, [7297]),
  (1086, [7298]), (1089, [7299]), (1090, [7300, 7301]), (1098, [7302]),
  (1123, [7303]), (7296, [1074]), (7297, [1076]), (7298, [1086]),
  (7299, [1089]), (7300, [1090, 7301]), (7301, [1090, 7300]), (7302, [1098]),
  (7303, [1123]), (7304, [42571]), (7777, [7835]), (7835, [7777]),
  (8126, [837, 953]), (8147, [912]), (8163, [944]), (42571, [7304]),
  (64261, [64262]), (64262, [64261])]
/-- Unicode word character (regex `\w`): alphanumeric or underscore. -/
def isWordCharNat (n : Nat) : Bool :=
  uniWordRanges.any (fun r => r.1 ≤ n && n ≤ r.2)

def isWordChar (c : Char) : Bool := isWordCharNat c.toNat

/-- The character of `t` at position `p`, viewed through `\w`; out of range
counts as a non-word position. -/
def wordAt (t : List Char) (p : Nat) : Bool :=
  match t[p]? with
  | some c => isWordChar c
  | none => false

/-- Regex `\b`: a word boundary sits at position `p` iff exactly one of the
character before `p` and the character at `p` is a word character. -/
def boundaryAt (t : List Char) (p : Nat) : Bool :=
  xor (if p = 0 then false else wordAt t (p - 1)) (wordAt t p)

/-- `_sre.unicode_tolower` on a code point: the table entry when one
exists, the code point itself otherwise. -/
def sreLowerNat (n : Nat) : Nat :=
  match sreLowerTable.find? (fun q => q.1 == n) with
  | some q => q.2
  | none => n

/-- The extra case equivalences the engine admits for a lowered pattern
code point. -/
def fixesFor (p : Nat) : List Nat :=
  match sreExtraCases.find? (fun q => q.1 == p) with
  | some q => q.2
  | none => []

/-- One pattern literal `p` (already lowered) against one text character:
`unicode_tolower(ch)` must equal `p` or one of its extra equivalences. -/
def charMatchesUniIgnore (p : Nat) (ch : Char) : Bool :=
  sreLowerNat ch.toNat == p || (fixesFor p).contains (sreLowerNat ch.toNat)

/-- The literal pattern (a list of lowered code points) against a slice of
the text, character by character; a slice of the wrong length fails. -/
def sliceMatches : List Nat → List Char → Bool
  | [], [] => true
  | p :: ps, c :: cs => charMatchesUniIgnore p c && sliceMatches ps cs
  | _, _ => false

/-- The keyword pattern matches at position `i` of the text, with `\b`
required on both sides of the occurrence. -/
def matchesAt (kw : List Nat) (t : List Char) (i : Nat) : Bool :=
  sliceMatches kw ((t.drop i).take kw.length) && boundaryAt t i &&
    boundaryAt t (i + kw.length)

def matchesKWAux (keyword text : List Char) : Bool :=
  if keyword = [] || text = [] then false
  else
    let kw := keyword.map (fun c => sreLowerNat c.toNat)
    (List.range (text.length + 1)).any (fun i => matchesAt kw text i)

/-- `credit_checker.matches_keyword_with_word_boundary`: `re.search` of
`\b re.escape(keyword.lower()) \b` over `text`, case-insensitively; empty
keyword or empty text give `False`.  The keyword's `str.lower` is modelled
by `unicode_tolower` per character, with which it agrees on every
dictionary keyword (all of them ASCII). -/
def matches_keyword_with_word_boundary (keyword text : String) : Bool :=
  matchesKWAux keyword.toList text.toList

/-! ### The static dictionary (`keywords.CREDIT_KEYWORDS`)

Transcribed entry by entry, duplicates included.  In the source, the entry
after `"istockphoto.com"` is written `'journey era'` with no trailing comma,
directly followed on the next line by `"profimedia"`; Python fuses the two
adjacent literals into the single string `"journey eraprofimedia"`. -/

def CREDIT_KEYWORDS : List String := [
  "getty", "reuters", "ap photo", "associated press", "imago", "panthermedia",
  "thinkstock", "bigstock", "icon sport", "clipdealer",
  "vector image", "shutterstock", "istock", "i stock", "alamy", "fotolia",
  "123rf", "deposit photos", "depositphotos", "depositphoto", "freepik",
  "freepik.com", "adobe stock", "alphaspirit", "alphaspirit.it",
  "alamy stock photo", "vector stock",
  "pixabay", "pexels", "unsplash", "pexel", "mostphotos", "stock.adobe.com",
  "garrett photography", "istockphoto.com", "journey eraprofimedia",
  "fr.depositphotos.com", "fotolia.com",
  "www.shutterstock.com", "fr.freepik.com", "can stock photo", "canstockphoto",
  "123rf.com",
  "getty images", "photodisc", "tony stone images", "allsport", "liaison agency",
  "istockphoto", "adobe", "stocksy", "stocksy united", "eyeem",
  "ap images", "associated press images", "thomson reuters pictures",
  "afp", "agence france-presse", "epa", "epa images", "european pressphoto agency",
  "magnum", "magnum photos", "noor", "noor photo agency", "panos", "panos pictures",
  "vii", "vii photo agency", "contact press", "contact press images",
  "invision", "invision agency", "wireimage", "mediavast",
  "sipa", "sipa press", "gamma", "gamma press", "rapho", "camera press",
  "rex features", "action press", "laif", "ansa", "ansa foto",
  "profimedia", "akg images", "keystone", "contrasto", "agence vu",
  "epa europe", "epa images", "epa photo",
  "upi", "upi photos", "black star", "contact press", "contact press images",
  "zuma", "zuma press", "everett collection", "polaris images",
  "ap photo", "ap images", "associated press", "getty entertainment",
  "invision agency", "mediavast", "corbis", "sygma", "bettmann archive",
  "kyodo", "kyodo news", "nikkan sports", "jiji press",
  "yonhap", "yonhap news", "visual china group", "vcg", "china photo",
  "aflo", "aflo images", "xinhuanet", "xinhua", "nikkei photo",
  "epa asia"]

/-! ### Text-source scans (`credit_checker.py`)

The browser collaborator delivers plain text fragments; the evidence
strings (`found_texts`, truncated excerpts) are write-only in the source —
they never feed back into any decision — and are omitted from the
embedding, which keeps only the `found_keywords` lists. -/

/-- The inner `for keyword in CREDIT_KEYWORDS: ... break` loop: the first
dictionary keyword matching the text, scanning in dictionary order. -/
def scanKeywordsFirst (ks : List String) (text : String) : Option String :=
  match ks with
  | [] => none
  | k :: rest =>
      if matches_keyword_with_word_boundary k text then some k
      else scanKeywordsFirst rest text

/-- `check_credit_keywords_in_parents`, Method 1 (scrolled text): each
collected text element is scanned for the first matching keyword, which is
recorded as `Scrolled Text: <keyword>`; the `break` makes each element
contribute at most one entry. -/
def scrolledTextKeywords : List String → List String
  | [] => []
  | t :: ts =>
      (match scanKeywordsFirst CREDIT_KEYWORDS t with
       | some k => ["Scrolled Text: " ++ k]
       | none => []) ++ scrolledTextKeywords ts

/-- `check_credit_keywords_in_parents`, Method 2 (browser-side loop over the
parent or grandparent text): every matching keyword is pushed, with no
break, each recorded as `Parent Element: <keyword>`. -/
def parentElementKeywords (text : String) : List String :=
  (CREDIT_KEYWORDS.filter
    (fun k => matches_keyword_with_word_boundary k text)).map
    (fun k => "Parent Element: " ++ k)

/-- Environment for `check_credit_keywords_in_parents`: the text fragments
the browser collaborator would return (scrolled viewport texts, and the
parent / grandparent `textContent`, absent when the element is missing). -/
structure ParentsEnv where
  scrolledTexts : List String
  parentText : Option String
  grandparentText : Option String
deriving DecidableEq

/-- `check_credit_keywords_in_parents`: the scrolled-text entries followed
by the parent-element and grandparent-element entries. -/
def check_credit_keywords_in_parents (env : ParentsEnv) : List String :=
  scrolledTextKeywords env.scrolledTexts
    ++ (match env.parentText with
        | some t => parentElementKeywords t
        | none => [])
    ++ (match env.grandparentText with
        | some t => parentElementKeywords t
        | none => [])

/-- `check_caption_elements_for_credits`, near-image phase: each caption
nested in the image's parent or grandparent container contributes the first
matching keyword as `Image Caption: <keyword>` (break after the first
match, no de-duplication in this phase). -/
def nearImageCaptionKeywords : List String → List String
  | [] => []
  | t :: ts =>
      (match scanKeywordsFirst CREDIT_KEYWORDS t with
       | some k => ["Image Caption: " ++ k]
       | none => []) ++ nearImageCaptionKeywords ts

/-- The page-wide keyword loop for one caption text: keywords are scanned in
dictionary order; a match whose entry `Page Caption: <keyword>` is not yet
in `found` is appended and the loop breaks; a match whose entry is already
present does not break — the loop keeps scanning further keywords (the
`break` sits inside the `not in` test in the source). -/
def pageCaptionScan (found : List String) (ks : List String) (text : String) :
    List String :=
  match ks with
  | [] => found
  | k :: rest =>
      if matches_keyword_with_word_boundary k text then
        if found.contains ("Page Caption: " ++ k) then
          pageCaptionScan found rest text
        else found ++ ["Page Caption: " ++ k]
      else pageCaptionScan found rest text

/-- `check_caption_elements_for_credits`: when an image element is at hand
the nearby captions are scanned first, then every page-wide caption is run
through `pageCaptionScan` against the accumulated entry list. -/
def check_caption_elements_for_credits (hasImage : Bool)
    (nearbyCaptions pageCaptions : List String) : List String :=
  let nearEntries := if hasImage then nearImageCaptionKeywords nearbyCaptions else []
  pageCaptions.foldl (fun acc t => pageCaptionScan acc CREDIT_KEYWORDS t) nearEntries

/-- Modelled from the spec: `find_credit_keywords_in_text` is imported by
`ocr.py` from `credit_checker` but its definition is not in the source
tree.  Section 4.3's Keyword Matcher `findAll` returns the dictionary
keywords that match the text under the word-boundary rule, one entry per
dictionary keyword, in dictionary order. -/
def find_credit_keywords_in_text (text : String) : List String :=
  CREDIT_KEYWORDS.filter (fun k => matches_keyword_with_word_boundary k text)

/-! ### OCR (`ocr.check_image_ocr_for_credits`)

The pytesseract / easyocr backends and the image download are external; the
environment records whether each backend import succeeded and the text the
chosen backend would extract (`none` models a download or backend failure,
which leaves `extracted_text` empty in the source). -/

structure OcrEnv where
  ocrAvailable : Bool
  easyocrAvailable : Bool
  extractedText : Option String
deriving DecidableEq

/-- `check_image_ocr_for_credits`: with no backend available the function
returns `([], "")` at once; otherwise the extracted text (empty on
failure) is scanned with `find_credit_keywords_in_text` and each hit is
recorded as `OCR: <keyword>`. -/
def check_image_ocr_for_credits (env : OcrEnv) : List String × String :=
  if !(env.ocrAvailable || env.easyocrAvailable) then ([], "")
  else
    match env.extractedText with
    | none => ([], "")
    | some t =>
        if t = "" then ([], "")
        else ((find_credit_keywords_in_text t).map (fun k => "OCR: " ++ k), t)

/-! ### Impressum fallback (`credit_checker.check_impressum_for_credits`) -/

/-- Environment for the impressum fallback: the body text of the located
legal page (`none` when no impressum link is found or the page fails to
load) and the OCR texts extracted from the scrolled screenshots of that
page by `_ocr_scroll_impressum_page`. -/
structure ImpressumEnv where
  pageText : Option String
  ocrTexts : List String
deriving DecidableEq

/-- `check_impressum_for_credits`: keywords found in the legal page's HTML
text are returned clean (no source tag); only when that scan is empty and
an OCR backend is available are the scrolled screenshots OCRed, each hit
tagged `OCR: <keyword>`. -/
def check_impressum_for_credits (env : ImpressumEnv) (ocrAvailable : Bool) :
    List String :=
  match env.pageText with
  | none => []
  | some pt =>
      let htmlKeywords :=
        CREDIT_KEYWORDS.filter (fun k => matches_keyword_with_word_boundary k pt)
      if htmlKeywords.isEmpty then
        if ocrAvailable then
          env.ocrTexts.foldr
            (fun t acc =>
              (find_credit_keywords_in_text t).map (fun k => "OCR: " ++ k) ++ acc)
            []
        else []
      else htmlKeywords

/-! ### The detection pipeline (`checker.check_image_credits`)

The driver setup, screenshots and the highlight URL are external
collaborators with no influence on the detection outcome and are omitted;
the result record keeps the `image_found`, `credit_keywords` and `error`
fields of the source's result dict, plus the instrumentation flag
`impressumInvoked` recording whether step 5 ran. -/

structure PageEnv where
  pageError : Option String
  foundByUrl : Bool
  foundBySim : Bool
  parents : ParentsEnv
  nearbyCaptions : List String
  pageCaptions : List String
  imageSrc : Option String
  ocr : OcrEnv
  impressum : ImpressumEnv
deriving DecidableEq

structure CheckResults where
  image_found : Bool
  credit_keywords : List String
  error : Option String
  impressumInvoked : Bool
deriving DecidableEq

/-- Steps 1–4 of the pipeline: scrolled text and parent elements (only run
with a located image element, which in the non-error path is always at
hand), caption elements, and OCR on the image's `src` attribute. -/
def primaryKeywords (env : PageEnv) : List String :=
  check_credit_keywords_in_parents env.parents
    ++ check_caption_elements_for_credits true env.nearbyCaptions env.pageCaptions
    ++ (match env.imageSrc with
        | some _ => (check_image_ocr_for_credits env.ocr).1
        | none => [])

/-- `check_image_credits`: a page error returns at once; a target image
found neither by URL nor by similarity returns at once with
`image_found = False` and the error message, before any credit analysis;
otherwise steps 1–4 accumulate keywords and step 5 (the impressum
fallback) runs only when that accumulation is empty. -/
def check_image_credits (env : PageEnv) : CheckResults :=
  match env.pageError with
  | some msg =>
      { image_found := false, credit_keywords := [],
        error := some ("Page error: " ++ msg), impressumInvoked := false }
  | none =>
      if env.foundByUrl || env.foundBySim then
        if (primaryKeywords env).isEmpty then
          { image_found := true,
            credit_keywords :=
              primaryKeywords env ++
                check_impressum_for_credits env.impressum
                  (env.ocr.ocrAvailable || env.ocr.easyocrAvailable),
            error := none, impressumInvoked := true }
        else
          { image_found := true, credit_keywords := primaryKeywords env,
            error := none, impressumInvoked := false }
      else
        { image_found := false, credit_keywords := [],
          error := some "Target image not found on page", impressumInvoked := false }

/-! ### Perceptual hashes (`image_utils.py`)

`dhash` and `ahash` receive a PIL image, convert it to grayscale and
resize it with LANCZOS; decoding and resampling belong to the PIL
collaborator, so an image is modelled by the two down-sampled grayscale
grids it yields (9×8 for the difference hash, 8×8 for the average hash,
at the default `hash_size = 8` used at every call site).  A grid of the
wrong size makes the indexing in the source raise, which the surrounding
`try` turns into a `None` result. -/

structure ImageModel where
  dPixels : List Nat
  aPixels : List Nat
deriving DecidableEq

/-- One hex digit, lower case, as produced by Python's `hex`. -/
def hexDigitChar (n : Nat) : Char :=
  if n < 10 then Char.ofNat ('0'.toNat + n) else Char.ofNat ('a'.toNat + (n - 10))

/-- `hex(decimal_value)[2:].rjust(2, '0')` for a byte value below 256. -/
def byteToHex (v : Nat) : List Char :=
  [hexDigitChar (v / 16 % 16), hexDigitChar (v % 16)]

/-- Byte value accumulated by `dhash`: bit `index % 8` contributes
`2 ** (index % 8)`, so the first bit of each group of eight is the least
significant. -/
def byteValLSB (b0 b1 b2 b3 b4 b5 b6 b7 : Bool) : Nat :=
  (if b0 then 1 else 0) + (if b1 then 2 else 0) + (if b2 then 4 else 0) +
  (if b3 then 8 else 0) + (if b4 then 16 else 0) + (if b5 then 32 else 0) +
  (if b6 then 64 else 0) + (if b7 then 128 else 0)

/-- Byte value accumulated by `ahash`: bit `j` of each group of eight
contributes `2 ** (7 - j)`, most significant first. -/
def byteValMSB (b0 b1 b2 b3 b4 b5 b6 b7 : Bool) : Nat :=
  (if b0 then 128 else 0) + (if b1 then 64 else 0) + (if b2 then 32 else 0) +
  (if b3 then 16 else 0) + (if b4 then 8 else 0) + (if b5 then 4 else 0) +
  (if b6 then 2 else 0) + (if b7 then 1 else 0)

/-- The hex string emitted by `dhash`: one byte per eight bits, first bit
least significant, any trailing group shorter than eight bits dropped
(the source only flushes on `index % 8 == 7`). -/
def encodeBitsLSB : List Bool → List Char
  | b0 :: b1 :: b2 :: b3 :: b4 :: b5 :: b6 :: b7 :: rest =>
      byteToHex (byteValLSB b0 b1 b2 b3 b4 b5 b6 b7) ++ encodeBitsLSB rest
  | _ => []

/-- The hex string emitted by `ahash`: one byte per eight bits, first bit
most significant. -/
def encodeBitsMSB : List Bool → List Char
  | b0 :: b1 :: b2 :: b3 :: b4 :: b5 :: b6 :: b7 :: rest =>
      byteToHex (byteValMSB b0 b1 b2 b3 b4 b5 b6 b7) ++ encodeBitsMSB rest
  | _ => []

/-- The 64 comparison bits of `dhash`: for each of the 8 rows of the
9-column grid, compare each pixel with its right neighbour
(`pixels[row * 9 + col] > pixels[row * 9 + col + 1]`).  The two nested
loops are flattened row-major: bit `idx` has `row = idx / 8`,
`col = idx % 8`, in the same emission order as the source. -/
def dhashBits (pixels : List Nat) : List Bool :=
  (List.range 64).map (fun idx =>
    decide (pixels.getD ((idx / 8) * 9 + idx % 8) 0 >
      pixels.getD ((idx / 8) * 9 + idx % 8 + 1) 0))

/-- The 64 threshold bits of `ahash`: each pixel of the 8×8 grid compared
with the mean intensity (`1 if pixel >= avg else 0`). -/
def ahashBits (pixels : List Nat) : List Bool :=
  let avg : ℚ := (pixels.sum : ℚ) / (pixels.length : ℚ)
  pixels.map (fun (q : Nat) => decide ((q : ℚ) ≥ avg))

/-- `image_utils.dhash` at the default `hash_size = 8`: `None` when the
down-sampled grid does not have its 72 pixels. -/
def dhash (img : ImageModel) : Option (List Char) :=
  if img.dPixels.length = 72 then some (encodeBitsLSB (dhashBits img.dPixels))
  else none

/-- `image_utils.ahash` at the default `hash_size = 8`: `None` when the
down-sampled grid does not have its 64 pixels. -/
def ahash (img : ImageModel) : Option (List Char) :=
  if img.aPixels.length = 64 then some (encodeBitsMSB (ahashBits img.aPixels))
  else none

/-- `image_utils.hamming_distance`: `float('inf')` (here `⊤ : ℕ∞`) when
either hash is missing or empty or the lengths differ, otherwise
`sum(c1 != c2 for c1, c2 in zip(hash1, hash2))` — a count over hex
characters. -/
def hamming_distance (hash1 hash2 : Option (List Char)) : ℕ∞ :=
  match hash1, hash2 with
  | some h1, some h2 =>
      if h1 = [] ∨ h2 = [] ∨ h1.length ≠ h2.length then ⊤
      else ((h1.zip h2).countP (fun p => p.1 != p.2) : Nat)
  | _, _ => ⊤

/-- The number of positions at which two bit vectors differ — the quantity
the spec's `hammingDistance` promises for equal-length vectors. -/
def countDiffBits (a b : List Bool) : Nat :=
  (a.zip b).countP (fun p => p.1 != p.2)

/-! ### Similarity scoring and the parallel batch (`image_utils.py`)

`calculate_image_similarity_batch` downloads the target once, hashes it,
then dispatches one `check_single_similarity` task per candidate on a
thread pool, collecting results in completion order with an early exit on
the first match.  Downloads are the network collaborator: an image is the
`Option ImageModel` the download would produce.  Completion order is
nondeterministic in the source (§4.2 of the spec records this); the
embedding fixes it to submission order.  The work trace in the second
component lists the candidates whose comparison task actually ran. -/

/-- Similarity from one hamming distance, `1 - distance / max_distance`.
The source works in floats where an infinite distance yields `-inf`; the
embedding returns `-1`, which no threshold in `[0, 1]` accepts, and the
branch is unreachable anyway because `dhash` / `ahash` always produce
16-character strings. -/
def similarityScore (dist : ℕ∞) (maxDistance : Nat) : ℚ :=
  match dist with
  | ⊤ => -1
  | (d : Nat) => 1 - (d : ℚ) / (maxDistance : ℚ)

/-- `check_single_similarity` (closure inside the batch): a candidate that
fails to download or hash reports `(url, 0.0, False)`; otherwise both
hamming distances are turned into similarities with
`max_distance = len(target_dhash) * 4` and averaged. -/
def check_single_similarity (target_dhash target_ahash : List Char)
    (similarity_threshold : ℚ) (compare_url : String)
    (compare_img : Option ImageModel) : String × ℚ × Bool :=
  match compare_img with
  | none => (compare_url, 0, false)
  | some img =>
      match dhash img, ahash img with
      | some compare_dhash, some compare_ahash =>
          let dhashDist := hamming_distance (some target_dhash) (some compare_dhash)
          let ahashDist := hamming_distance (some target_ahash) (some compare_ahash)
          let maxDistance := target_dhash.length * 4
          let dhashSim := similarityScore dhashDist maxDistance
          let ahashSim := similarityScore ahashDist maxDistance
          let avgSim := (dhashSim + ahashSim) / 2
          (compare_url, avgSim, decide (avgSim ≥ similarity_threshold))
      | _, _ => (compare_url, 0, false)

/-- Environment of one batch call: the downloaded target (or `none`) and
the candidate URLs with their downloads. -/
structure BatchEnv where
  target : Option ImageModel
  candidates : List (String × Option ImageModel)

/-- The result-collection loop: one comparison per candidate, stopping
right after the first `is_match = True` result (remaining tasks are
cancelled in the source).  Also returns the list of candidates whose
comparison ran. -/
def runCandidates (target_dhash target_ahash : List Char)
    (similarity_threshold : ℚ) :
    List (String × Option ImageModel) → List (String × ℚ × Bool) × List String
  | [] => ([], [])
  | (url, img) :: rest =>
      let r := check_single_similarity target_dhash target_ahash
        similarity_threshold url img
      if r.2.2 then ([r], [url])
      else
        let rec' := runCandidates target_dhash target_ahash similarity_threshold rest
        (r :: rec'.1, url :: rec'.2)

/-- Stable insertion for `results.sort(key=score, reverse=True)`. -/
def insertByScoreDesc (r : String × ℚ × Bool) :
    List (String × ℚ × Bool) → List (String × ℚ × Bool)
  | [] => [r]
  | s :: rest =>
      if r.2.1 > s.2.1 then r :: s :: rest else s :: insertByScoreDesc r rest

def sortByScoreDesc (rs : List (String × ℚ × Bool)) : List (String × ℚ × Bool) :=
  rs.foldr insertByScoreDesc []

/-- `calculate_image_similarity_batch`, instrumented with the work trace:
an empty candidate list returns at once; a failed target download or a
failed target hash returns the empty list with no candidate work;
otherwise every candidate is compared until the first match and the
collected results are sorted by score, highest first. -/
def calculate_image_similarity_batch_traced (env : BatchEnv)
    (similarity_threshold : ℚ) : List (String × ℚ × Bool) × List String :=
  if env.candidates.isEmpty then ([], [])
  else
    match env.target with
    | none => ([], [])
    | some targetImg =>
        match dhash targetImg, ahash targetImg with
        | some target_dhash, some target_ahash =>
            let collected := runCandidates target_dhash target_ahash
              similarity_threshold env.candidates
            (sortByScoreDesc collected.1, collected.2)
        | _, _ => ([], [])

/-- `calculate_image_similarity_batch` as the caller sees it: the sorted
result list. -/
def calculate_image_similarity_batch (env : BatchEnv)
    (similarity_threshold : ℚ) : List (String × ℚ × Bool) :=
  (calculate_image_similarity_batch_traced env similarity_threshold).1

/-- Target-side failure of one batch call: the target image could not be
downloaded, or either of its hashes could not be computed. -/
def targetFails (env : BatchEnv) : Prop :=
  env.target = none ∨
    ∃ img, env.target = some img ∧ (dhash img = none ∨ ahash img = none)

/-! ### Shared helper lemmas -/

theorem scanKeywordsFirst_mem {ks : List String} {t k : String}
    (h : scanKeywordsFirst ks t = some k) : k ∈ ks := by
  induction ks with
  | nil => simp [scanKeywordsFirst] at h
  | cons a rest ih =>
      rw [scanKeywordsFirst] at h
      split at h
      · cases h; exact List.mem_cons_self _ _
      · exact List.mem_cons_of_mem _ (ih h)

theorem scrolledTextKeywords_mem {e : String} {texts : List String}
    (h : e ∈ scrolledTextKeywords texts) :
    ∃ k, k ∈ CREDIT_KEYWORDS ∧ e = "Scrolled Text: " ++ k := by
  induction texts with
  | nil => simp [scrolledTextKeywords] at h
  | cons t ts ih =>
      rw [scrolledTextKeywords] at h
      rcases List.mem_append.mp h with h1 | h2
      · rcases hscan : scanKeywordsFirst CREDIT_KEYWORDS t with _ | k
        · rw [hscan] at h1; simp at h1
        · rw [hscan] at h1
          simp only [List.mem_singleton] at h1
          exact ⟨k, scanKeywordsFirst_mem hscan, h1⟩
      · exact ih h2

theorem string_append_left_cancel {p a b : String} (h : p ++ a = p ++ b) :
    a = b := by
  have hd := congrArg String.data h
  rw [String.data_append, String.data_append] at hd
  exact String.ext (List.append_cancel_left hd)

/-! ### C1 — image not located versus the impressum fallback -/

/-- A page on which the target image is found neither by URL nor by
similarity, while the impressum page text contains the dictionary keyword
`getty`. -/
def envImageNotFound : PageEnv where
  pageError := none
  foundByUrl := false
  foundBySim := false
  parents := { scrolledTexts := [], parentText := none, grandparentText := none }
  nearbyCaptions := []
  pageCaptions := []
  imageSrc := none
  ocr := { ocrAvailable := false, easyocrAvailable := false, extractedText := none }
  impressum := { pageText := some "getty images press", ocrTexts := [] }

/-- **C1, counterexample.** On a page whose image is not located and whose
impressum text contains the dictionary keyword `getty`,
`check_image_credits` does not invoke the impressum fallback and reports no
credit keywords: the claimed fallback-with-`imageFound = false` behaviour
does not happen. -/
theorem c1_counterexample :
    envImageNotFound.foundByUrl = false ∧
    envImageNotFound.foundBySim = false ∧
    envImageNotFound.pageError = none ∧
    envImageNotFound.impressum.pageText = some "getty images press" ∧
    ("getty" ∈ CREDIT_KEYWORDS ∧
      matches_keyword_with_word_boundary "getty" "getty images press" = true) ∧
    (check_image_credits envImageNotFound).impressumInvoked = false ∧
    (check_image_credits envImageNotFound).credit_keywords = [] ∧
    (check_image_credits envImageNotFound).image_found = false :=
  ⟨rfl, rfl, rfl, rfl, ⟨by decide, by decide⟩, rfl, rfl, rfl⟩

/-- **C1, amended.** When the target image is located neither by URL nor by
similarity, `check_image_credits` returns early: `image_found = false`,
no credit keywords, the image-not-found error, and the impressum fallback
is never invoked — credits are never reported with `imageFound = false`. -/
theorem c1_image_not_found_returns_early (env : PageEnv)
    (h1 : env.pageError = none) (h2 : env.foundByUrl = false)
    (h3 : env.foundBySim = false) :
    check_image_credits env =
      { image_found := false, credit_keywords := [],
        error := some "Target image not found on page",
        impressumInvoked := false } := by
  simp [check_image_credits, h1, h2, h3]

/-- **C1, witness** for the amended theorem. -/
theorem c1_image_not_found_returns_early_witness :
    check_image_credits envImageNotFound =
      { image_found := false, credit_keywords := [],
        error := some "Target image not found on page",
        impressumInvoked := false } :=
  c1_image_not_found_returns_early envImageNotFound rfl rfl rfl

/-! ### C7 — fallback gating -/

/-- **C7.** In every run of `check_image_credits` in which the primary
sources (scrolled text, parent and grandparent elements, captions, OCR)
collectively produced at least one keyword entry, the impressum fallback is
not invoked. -/
theorem c7_fallback_gating (env : PageEnv) (h : primaryKeywords env ≠ []) :
    (check_image_credits env).impressumInvoked = false := by
  unfold check_image_credits
  split
  · rfl
  · split
    · split
      · rename_i hEmpty
        exact absurd (List.isEmpty_iff.mp hEmpty) h
      · rfl
    · rfl

/-- A page whose scrolled text contains `getty images` (so the primary
sources yield a keyword) and whose impressum page also contains keywords. -/
def envPrimaryHit : PageEnv where
  pageError := none
  foundByUrl := true
  foundBySim := false
  parents := { scrolledTexts := ["photo by getty images"], parentText := none,
               grandparentText := none }
  nearbyCaptions := []
  pageCaptions := []
  imageSrc := none
  ocr := { ocrAvailable := false, easyocrAvailable := false, extractedText := none }
  impressum := { pageText := some "getty images press", ocrTexts := [] }

/-- **C7, witness.** -/
theorem c7_fallback_gating_witness :
    primaryKeywords envPrimaryHit ≠ [] ∧
    (check_image_credits envPrimaryHit).impressumInvoked = false :=
  ⟨by decide, c7_fallback_gating envPrimaryHit (by decide)⟩

/-! ### C3 — one entry per scrolled text element -/

/-- **C3, counterexample.** The text element `getty reuters` contains the
two distinct dictionary keywords `getty` and `reuters`, yet the scrolled
text scan records only the single entry for `getty` — the `break` ends the
element's keyword loop after the first hit, so distinct keywords in the
same element do not each produce an entry. -/
theorem c3_counterexample :
    "getty" ∈ CREDIT_KEYWORDS ∧ "reuters" ∈ CREDIT_KEYWORDS ∧
    ("getty" : String) ≠ "reuters" ∧
    matches_keyword_with_word_boundary "getty" "getty reuters" = true ∧
    matches_keyword_with_word_boundary "reuters" "getty reuters" = true ∧
    scrolledTextKeywords ["getty reuters"] = ["Scrolled Text: getty"] ∧
    ((scrolledTextKeywords ["getty reuters"]).contains
      "Scrolled Text: reuters") = false :=
  ⟨by decide, by decide, by decide, by decide, by decide, by decide, by decide⟩

/-- **C3, amended.** Each scrolled text element contributes exactly one
match entry when any dictionary keyword matches it (the first such keyword
in dictionary order) and none otherwise; in particular an element holding
several distinct keywords still yields a single entry. -/
theorem c3_one_entry_per_element (texts : List String) :
    (scrolledTextKeywords texts).length =
      texts.countP (fun t => (scanKeywordsFirst CREDIT_KEYWORDS t).isSome) := by
  induction texts with
  | nil => rfl
  | cons t ts ih =>
      rw [scrolledTextKeywords, List.countP_cons, List.length_append, ih]
      rcases hscan : scanKeywordsFirst CREDIT_KEYWORDS t with _ | k <;>
        simp [hscan, Nat.add_comm]

/-! ### C10 — the fused dictionary entry -/

/-- **C10.** The dictionary contains the fused entry
`journey eraprofimedia` (two adjacent string literals with the comma
missing) and no entry `journey era`; consequently the scrolled-text scan
never records a match entry for the standalone phrase `journey era`, on any
input. -/
theorem c10_fused_journey_era_entry :
    (CREDIT_KEYWORDS.contains "journey eraprofimedia") = true ∧
    (CREDIT_KEYWORDS.contains "journey era") = false ∧
    ∀ texts : List String,
      ((scrolledTextKeywords texts).contains "Scrolled Text: journey era")
        = false := by
  refine ⟨by decide, by decide, fun texts => ?_⟩
  have hmem : ("Scrolled Text: journey era" : String) ∉
      scrolledTextKeywords texts := by
    intro hm
    obtain ⟨k, hk, he⟩ := scrolledTextKeywords_mem hm
    have hlit : ("Scrolled Text: " ++ "journey era" : String) =
        "Scrolled Text: journey era" := by decide
    have hkeq : ("journey era" : String) = k :=
      string_append_left_cancel (hlit.trans he)
    rw [← hkeq] at hk
    revert hk
    decide
  exact Bool.eq_false_iff.mpr (fun hc => hmem (by simpa using hc))

/-! ### C4 — hamming distance counts hex characters, not bits -/

/-- **C4.** The bit vectors `00000000` and `11111111` differ in all 8
bits, and their hex encodings `00` and `ff` have equal length, yet
`hamming_distance` returns 2 — it counts differing hex characters, not
differing bits of the encoded bit vectors (the source's own comment says
"convert hex strings to binary and count differences", which the code does
not do). -/
theorem c4_hamming_counts_hex_chars_not_bits :
    countDiffBits (List.replicate 8 false) (List.replicate 8 true) = 8 ∧
    (encodeBitsLSB (List.replicate 8 false)).length =
      (encodeBitsLSB (List.replicate 8 true)).length ∧
    hamming_distance (some (encodeBitsLSB (List.replicate 8 false)))
      (some (encodeBitsLSB (List.replicate 8 true))) = 2 ∧
    (2 : ℕ∞) ≠ (8 : ℕ∞) :=
  ⟨by decide, by decide, by decide, by decide⟩

/-! ### C6 — target failure versus zero candidates -/

/-- An image whose two down-sampled grids have the expected sizes, so both
hashes succeed. -/
def imgOk : ImageModel where
  dPixels := List.replicate 72 0
  aPixels := List.replicate 64 0

/-- **C6, counterexample.** A batch call whose target download fails
returns the empty list — the very same value a successful search over zero
candidates returns.  The target failure is not surfaced distinctly. -/
theorem c6_counterexample :
    targetFails { target := none, candidates := [("u1", some imgOk)] } ∧
    calculate_image_similarity_batch
      { target := none, candidates := [("u1", some imgOk)] } (85/100) = [] ∧
    calculate_image_similarity_batch
      { target := some imgOk, candidates := [] } (85/100) = [] ∧
    calculate_image_similarity_batch
        { target := none, candidates := [("u1", some imgOk)] } (85/100) =
      calculate_image_similarity_batch
        { target := some imgOk, candidates := [] } (85/100) :=
  ⟨Or.inl rfl, rfl, rfl, rfl⟩

/-- **C6, amended.** When the target fingerprint computation fails (target
not downloadable, or either hash fails), the batch returns at once: the
result list is empty and no per-candidate comparison work is attempted —
but that empty list is indistinguishable from the result of a successful
search over zero candidates. -/
theorem c6_target_failure_fail_fast (env : BatchEnv) (thr : ℚ)
    (h : targetFails env) :
    calculate_image_similarity_batch_traced env thr = ([], []) := by
  unfold calculate_image_similarity_batch_traced
  split
  · rfl
  · rcases h with hnone | ⟨img, ht, hfail⟩
    · rw [hnone]
    · rcases hfail with hd | ha
      · simp [ht, hd]
      · rcases hdh : dhash img with _ | td <;> simp [ht, hdh, ha]

/-- **C6, witness** for the amended theorem. -/
theorem c6_target_failure_fail_fast_witness :
    calculate_image_similarity_batch_traced
      { target := none, candidates := [("u1", some imgOk)] } (85/100)
      = ([], []) :=
  c6_target_failure_fail_fast _ _ (Or.inl rfl)

/-! ### C2 — caption found both near the image and page-wide -/

theorem nearImageCaptionKeywords_mem {e : String} {ts : List String}
    (h : e ∈ nearImageCaptionKeywords ts) :
    ∃ k, e = "Image Caption: " ++ k := by
  induction ts with
  | nil => simp [nearImageCaptionKeywords] at h
  | cons t rest ih =>
      rw [nearImageCaptionKeywords] at h
      rcases List.mem_append.mp h with h1 | h2
      · rcases hscan : scanKeywordsFirst CREDIT_KEYWORDS t with _ | k
        · rw [hscan] at h1; simp at h1
        · rw [hscan] at h1
          simp only [List.mem_singleton] at h1
          exact ⟨k, h1⟩
      · exact ih h2

theorem image_tag_ne_page_tag (a b : String) :
    ("Image Caption: " ++ a) ≠ ("Page Caption: " ++ b) := by
  intro h
  have hI : ("Image Caption: " ++ a).data.head? = some 'I' := by
    rw [String.data_append]; rfl
  have hP : ("Page Caption: " ++ b).data.head? = some 'P' := by
    rw [String.data_append]; rfl
  rw [h, hP] at hI
  exact absurd (Option.some.inj hI) (by decide)

theorem pageCaptionScan_count_le {e : String} {found : List String}
    {ks : List String} {t : String} (h : found.count e ≤ 1) :
    (pageCaptionScan found ks t).count e ≤ 1 := by
  induction ks with
  | nil => simpa [pageCaptionScan] using h
  | cons k rest ih =>
      rw [pageCaptionScan]
      split
      · split
        · exact ih
        · rename_i hnotmem
          rw [List.count_append]
          by_cases he : ("Page Caption: " ++ k) = e
          · have h0 : found.count e = 0 := by
              rw [List.count_eq_zero]
              intro hm
              rw [← he] at hm
              exact hnotmem (by simpa using hm)
            rw [h0, List.count_singleton']
            simp [he]
          · rw [List.count_singleton']
            simp only [he, if_false]
            omega
      · exact ih

/-- **C2, counterexample.** With the caption text `getty images photo` both
nested near the image and present page-wide, the caption check records two
Caption-tagged entries for the keyword `getty` — the page-wide re-scan is
de-duplicated only against entries of the form `Page Caption: …`, so the
near-image `Image Caption: getty` entry does not suppress it. -/
theorem c2_counterexample :
    matches_keyword_with_word_boundary "getty" "getty images photo" = true ∧
    "getty" ∈ CREDIT_KEYWORDS ∧
    check_caption_elements_for_credits true ["getty images photo"]
        ["getty images photo"]
      = ["Image Caption: getty", "Page Caption: getty"] ∧
    (check_caption_elements_for_credits true ["getty images photo"]
        ["getty images photo"]).length = 2 :=
  ⟨by decide, by decide, by decide, by decide⟩

/-- **C2, amended.** For every keyword, the page-wide caption re-scan adds
at most one `Page Caption: <keyword>` entry (the `not in` test de-duplicates
page-wide entries against each other); it is not suppressed by a near-image
`Image Caption: <keyword>` entry for the same keyword, so a keyword found in
both places yields two Caption-tagged entries. -/
theorem c2_page_caption_entry_unique (hasImage : Bool)
    (nearby pagewide : List String) (k : String) :
    (check_caption_elements_for_credits hasImage nearby pagewide).count
      ("Page Caption: " ++ k) ≤ 1 := by
  unfold check_caption_elements_for_credits
  have hfold : ∀ (ts : List String) (init : List String),
      init.count ("Page Caption: " ++ k) ≤ 1 →
      (ts.foldl (fun acc t => pageCaptionScan acc CREDIT_KEYWORDS t)
          init).count ("Page Caption: " ++ k) ≤ 1 := by
    intro ts
    induction ts with
    | nil => intro init h; simpa using h
    | cons t rest ih =>
        intro init h
        exact ih _ (pageCaptionScan_count_le h)
  refine hfold pagewide _ ?_
  have hbase : (if hasImage then nearImageCaptionKeywords nearby
      else []).count ("Page Caption: " ++ k) = 0 := by
    split
    · rw [List.count_eq_zero]
      intro hm
      obtain ⟨a, ha⟩ := nearImageCaptionKeywords_mem hm
      exact image_tag_ne_page_tag a k ha.symm
    · simp
  omega

/-! ### C5 — OCR unavailable degrades to a no-op -/

/-- **C5.** With neither OCR backend importable,
`check_image_ocr_for_credits` returns `([], "")` for every input; and the
pipeline's `error` outcome does not depend on the OCR environment at all,
so a detection run never fails because OCR is unavailable. -/
theorem c5_ocr_unavailable_noop :
    (∀ env : OcrEnv, env.ocrAvailable = false → env.easyocrAvailable = false →
        check_image_ocr_for_credits env = ([], "")) ∧
    (∀ (env : PageEnv) (o1 o2 : OcrEnv),
        (check_image_credits { env with ocr := o1 }).error =
          (check_image_credits { env with ocr := o2 }).error) := by
  constructor
  · intro env h1 h2
    simp [check_image_ocr_for_credits, h1, h2]
  · intro env o1 o2
    unfold check_image_credits
    cases hpe : env.pageError with
    | some m => rfl
    | none =>
        by_cases hf : (env.foundByUrl || env.foundBySim) = true
        · simp only [hf, if_true]
          split <;> split <;> rfl
        · simp only [Bool.not_eq_true] at hf
          simp [hf]

/-- **C5, witness.** -/
theorem c5_ocr_unavailable_noop_witness :
    check_image_ocr_for_credits
      { ocrAvailable := false, easyocrAvailable := false,
        extractedText := some "getty" } = ([], "") ∧
    (check_image_credits { envPrimaryHit with
        ocr := { ocrAvailable := false, easyocrAvailable := false,
                 extractedText := none } }).error =
      (check_image_credits { envPrimaryHit with
        ocr := { ocrAvailable := true, easyocrAvailable := true,
                 extractedText := some "getty" } }).error :=
  ⟨c5_ocr_unavailable_noop.1 _ rfl rfl, c5_ocr_unavailable_noop.2 _ _ _⟩

/-! ### C8 — self-similarity -/

theorem dhashBits_length (p : List Nat) : (dhashBits p).length = 64 := by
  rw [dhashBits, List.length_map, List.length_range]

theorem ahashBits_length (p : List Nat) : (ahashBits p).length = p.length := by
  have hz : ahashBits p =
      p.map (fun (q : Nat) =>
        decide ((q : ℚ) ≥ ((p.sum : ℚ) / (p.length : ℚ)))) := rfl
  rw [hz, List.length_map]

theorem encodeBitsLSB_ne_nil {l : List Bool} (h : 8 ≤ l.length) :
    encodeBitsLSB l ≠ [] := by
  rcases l with _ | ⟨b0, _ | ⟨b1, _ | ⟨b2, _ | ⟨b3, _ | ⟨b4, _ |
    ⟨b5, _ | ⟨b6, _ | ⟨b7, rest⟩⟩⟩⟩⟩⟩⟩⟩ <;>
    simp_all [encodeBitsLSB, byteToHex]

theorem encodeBitsMSB_ne_nil {l : List Bool} (h : 8 ≤ l.length) :
    encodeBitsMSB l ≠ [] := by
  rcases l with _ | ⟨b0, _ | ⟨b1, _ | ⟨b2, _ | ⟨b3, _ | ⟨b4, _ |
    ⟨b5, _ | ⟨b6, _ | ⟨b7, rest⟩⟩⟩⟩⟩⟩⟩⟩ <;>
    simp_all [encodeBitsMSB, byteToHex]

theorem zip_self_eq_map {α : Type} (l : List α) :
    l.zip l = l.map (fun a => (a, a)) := by
  induction l with
  | nil => rfl
  | cons a t ih => simp [List.zip_cons_cons, ih]

/-- A hash compared with itself has hamming distance zero (the source
requires the hash to be non-empty, empty hashes being treated as the
missing-hash sentinel). -/
theorem hamming_distance_self {h : List Char} (hne : h ≠ []) :
    hamming_distance (some h) (some h) = 0 := by
  show (if h = [] ∨ h = [] ∨ h.length ≠ h.length then (⊤ : ℕ∞)
      else ((h.zip h).countP (fun p => p.1 != p.2) : Nat)) = 0
  rw [if_neg (by simp [hne])]
  have hc : (h.zip h).countP (fun p => p.1 != p.2) = 0 := by
    rw [zip_self_eq_map, List.countP_map]
    rw [List.countP_eq_zero]
    intro a _
    simp
  rw [hc]
  exact Nat.cast_zero

theorem similarityScore_zero (m : Nat) : similarityScore 0 m = 1 := by
  have h0 : ((0 : Nat) : ℕ∞) = (0 : ℕ∞) := Nat.cast_zero
  rw [← h0]
  show (1 : ℚ) - ((0 : Nat) : ℚ) / (m : ℚ) = 1
  simp

/-- **C8.** For every image whose two down-sampled grids have their
expected sizes (the image decodes and hashes successfully), comparing the
image with itself succeeds for both hash kinds, both hamming distances are
zero, and the resulting similarity score is exactly 1 — for any
threshold. -/
theorem c8_self_similarity (img : ImageModel) (thr : ℚ)
    (h1 : img.dPixels.length = 72) (h2 : img.aPixels.length = 64) :
    ∃ td ta, dhash img = some td ∧ ahash img = some ta ∧
      hamming_distance (some td) (some td) = 0 ∧
      hamming_distance (some ta) (some ta) = 0 ∧
      (check_single_similarity td ta thr "u" (some img)).2.1 = 1 := by
  refine ⟨encodeBitsLSB (dhashBits img.dPixels),
    encodeBitsMSB (ahashBits img.aPixels), ?_, ?_, ?_, ?_, ?_⟩
  · simp [dhash, h1]
  · simp [ahash, h2]
  · exact hamming_distance_self
      (encodeBitsLSB_ne_nil (by rw [dhashBits_length]; omega))
  · exact hamming_distance_self
      (encodeBitsMSB_ne_nil (by rw [ahashBits_length, h2]; omega))
  · have hd : dhash img = some (encodeBitsLSB (dhashBits img.dPixels)) := by
      simp [dhash, h1]
    have ha : ahash img = some (encodeBitsMSB (ahashBits img.aPixels)) := by
      simp [ahash, h2]
    rw [check_single_similarity, hd, ha]
    simp only []
    rw [hamming_distance_self
        (encodeBitsLSB_ne_nil (by rw [dhashBits_length]; omega)),
      hamming_distance_self
        (encodeBitsMSB_ne_nil (by rw [ahashBits_length, h2]; omega)),
      similarityScore_zero]
    norm_num

/-- **C8, witness.** -/
theorem c8_self_similarity_witness :
    ∃ td ta, dhash imgOk = some td ∧ ahash imgOk = some ta ∧
      hamming_distance (some td) (some td) = 0 ∧
      hamming_distance (some ta) (some ta) = 0 ∧
      (check_single_similarity td ta (85/100) "u" (some imgOk)).2.1 = 1 :=
  c8_self_similarity imgOk (85/100) (by decide) (by decide)

/-! ### C9 — word-boundary behaviour of the keyword `vii` -/

/-- The pattern `vii` occurs at position `i` of the text: the three
characters there match `v`, `i`, `i` case-insensitively under the engine's
character equivalences. -/
def viiOccursAt (t : List Char) (i : Nat) : Bool :=
  sliceMatches [118, 105, 105] ((t.drop i).take 3)

/-- The occurrence of `vii` at position `i` touches a word character: the
character just before position `i`, or the one just after the occurrence,
is a word character (i.e. the occurrence sits inside a longer word). -/
def viiAdjacentWord (t : List Char) (i : Nat) : Bool :=
  (if i = 0 then false else wordAt t (i - 1)) || wordAt t (i + 3)

theorem sliceMatches_length {kw : List Nat} {s : List Char}
    (h : sliceMatches kw s = true) : s.length = kw.length := by
  induction kw generalizing s with
  | nil =>
      cases s with
      | nil => rfl
      | cons c cs => simp [sliceMatches] at h
  | cons p ps ih =>
      cases s with
      | nil => simp [sliceMatches] at h
      | cons c cs =>
          rw [sliceMatches, Bool.and_eq_true] at h
          simp [ih h.2]

/-- Any character matched case-insensitively by a pattern code point whose
whole equivalence class consists of word characters is itself a word
character; the first three hypotheses are facts about the engine's tables,
checked by evaluation. -/
theorem charMatches_isWord (targets : List Nat) (p : Nat) {c : Char}
    (hts : targets = p :: fixesFor p)
    (htab : sreLowerTable.all
      (fun q => !(targets.contains q.2) || isWordCharNat q.1) = true)
    (htar : targets.all (fun n => isWordCharNat n) = true)
    (h : charMatchesUniIgnore p c = true) :
    isWordChar c = true := by
  have hmem : targets.contains (sreLowerNat c.toNat) = true := by
    rw [hts]
    unfold charMatchesUniIgnore at h
    by_cases h1 : (sreLowerNat c.toNat == p) = true
    · have hp : sreLowerNat c.toNat = p := eq_of_beq h1
      simp [List.contains_cons, hp]
    · rw [Bool.not_eq_true] at h1
      rw [h1, Bool.false_or] at h
      have hm : sreLowerNat c.toNat ∈ fixesFor p := by simpa using h
      simp [List.contains_cons, hm]
  unfold isWordChar
  cases hf : sreLowerTable.find? (fun q => q.1 == c.toNat) with
  | none =>
      have hlow : sreLowerNat c.toNat = c.toNat := by
        unfold sreLowerNat; rw [hf]
      rw [hlow] at hmem
      have hm : c.toNat ∈ targets := by simpa using hmem
      exact List.all_eq_true.mp htar _ hm
  | some q =>
      have hlow : sreLowerNat c.toNat = q.2 := by
        unfold sreLowerNat; rw [hf]
      rw [hlow] at hmem
      have hqmem := List.mem_of_find?_eq_some hf
      have hqpred := List.find?_some hf
      have hq1 : q.1 = c.toNat := Nat.eq_of_beq_eq_true (by simpa using hqpred)
      have h2 := List.all_eq_true.mp htab q hqmem
      rw [hmem] at h2
      simp at h2
      rw [← hq1]
      exact h2

/-- Every character matching the pattern letter `v` is a word character. -/
theorem charMatches_v_isWord {c : Char}
    (h : charMatchesUniIgnore 118 c = true) : isWordChar c = true :=
  charMatches_isWord [118] 118 (by decide) (by decide) (by decide) h

/-- Every character matching the pattern letter `i` is a word character. -/
theorem charMatches_i_isWord {c : Char}
    (h : charMatchesUniIgnore 105 c = true) : isWordChar c = true :=
  charMatches_isWord [105, 305] 105 (by decide) (by decide) (by decide) h

/-- At each position, the matcher's per-position test for the keyword `vii`
is: the pattern occurs there, and neither neighbouring character is a word
character (every character matching `v` or `i` being a word character). -/
theorem matchesAt_vii (t : List Char) (i : Nat) :
    matchesAt [118, 105, 105] t i =
      (viiOccursAt t i && !(viiAdjacentWord t i)) := by
  by_cases hocc : sliceMatches [118, 105, 105] ((t.drop i).take 3) = true
  · have htk := hocc
    rcases hd : t.drop i with _ | ⟨c0, _ | ⟨c1, _ | ⟨c2, rest⟩⟩⟩
    · rw [hd] at hocc; simp [sliceMatches] at hocc
    · rw [hd] at hocc; simp [sliceMatches] at hocc
    · rw [hd] at hocc; simp [sliceMatches] at hocc
    · rw [hd] at hocc
      have hocc3 : charMatchesUniIgnore 118 c0 = true ∧
          charMatchesUniIgnore 105 c1 = true ∧
          charMatchesUniIgnore 105 c2 = true := by
        simpa [sliceMatches, Bool.and_eq_true] using hocc
      have h0 : t[i]? = some c0 := by
        have hg := List.getElem?_drop t i 0
        rw [hd] at hg
        simpa using hg.symm
      have hc2 : t[i + 2]? = some c2 := by
        have hg := List.getElem?_drop t i 2
        rw [hd] at hg
        simpa using hg.symm
      have hw0 : wordAt t i = true := by
        unfold wordAt; rw [h0]; exact charMatches_v_isWord hocc3.1
      have hw2 : wordAt t (i + 2) = true := by
        unfold wordAt; rw [hc2]; exact charMatches_i_isWord hocc3.2.2
      have h30 : ¬ (i + 3 = 0) := by omega
      have h31 : i + 3 - 1 = i + 2 := by omega
      show (sliceMatches [118, 105, 105] ((t.drop i).take 3) &&
          (xor (if i = 0 then false else wordAt t (i - 1)) (wordAt t i)) &&
          (xor (if i + 3 = 0 then false else wordAt t (i + 3 - 1))
            (wordAt t (i + 3)))) =
        (sliceMatches [118, 105, 105] ((t.drop i).take 3) &&
          !((if i = 0 then false else wordAt t (i - 1)) || wordAt t (i + 3)))
      rw [if_neg h30, h31, hw0, hw2, htk]
      cases hp : (if i = 0 then false else wordAt t (i - 1)) <;>
        cases hw3 : wordAt t (i + 3) <;> rfl
  · have hb : sliceMatches [118, 105, 105] ((t.drop i).take 3) = false :=
      Bool.eq_false_iff.mpr hocc
    show (sliceMatches [118, 105, 105] ((t.drop i).take 3) &&
        (xor (if i = 0 then false else wordAt t (i - 1)) (wordAt t i)) &&
        (xor (if i + 3 = 0 then false else wordAt t (i + 3 - 1))
          (wordAt t (i + 3)))) =
      (sliceMatches [118, 105, 105] ((t.drop i).take 3) &&
        !((if i = 0 then false else wordAt t (i - 1)) || wordAt t (i + 3)))
    rw [hb]
    simp

theorem viiOccursAt_le {t : List Char} {i : Nat}
    (h : viiOccursAt t i = true) : i + 3 ≤ t.length := by
  have hvp : sliceMatches [118, 105, 105] ((t.drop i).take 3) = true := h
  have hl := sliceMatches_length hvp
  simp only [List.length_take, List.length_drop, List.length_cons,
    List.length_nil] at hl
  rw [Nat.min_def] at hl
  split at hl <;> omega

theorem matchesKW_vii_eq (text : String) :
    matches_keyword_with_word_boundary "vii" text =
      (List.range (text.data.length + 1)).any
        (fun i => viiOccursAt text.data i &&
          !(viiAdjacentWord text.data i)) := by
  have hfun : (fun i => matchesAt [118, 105, 105] text.data i) =
      (fun i => viiOccursAt text.data i &&
        !(viiAdjacentWord text.data i)) :=
    funext (fun i => matchesAt_vii text.data i)
  by_cases htext : text.data = []
  · unfold matches_keyword_with_word_boundary matchesKWAux
    rw [if_pos (by simp [String.toList, htext])]
    rw [htext]
    decide
  · unfold matches_keyword_with_word_boundary matchesKWAux
    rw [if_neg (by simp [String.toList, htext])]
    have hkw : ("vii".toList.map (fun c => sreLowerNat c.toNat)) =
        [118, 105, 105] := by decide
    rw [hkw]
    show (List.range (text.data.length + 1)).any
        (fun i => matchesAt [118, 105, 105] text.data i) = _
    rw [hfun]

/-- **C9.** For the dictionary entry `vii`: on any text in which every
case-insensitive occurrence of `vii` has an adjacent word character (it
only appears inside longer words), the matcher reports no match; and on
any text with an occurrence of `vii` delimited on both sides by non-word
characters or the string ends, the matcher reports a match.  Word
characters and case equivalences follow the engine's Unicode tables. -/
theorem c9_vii_word_boundary (text : String) :
    ((∀ i, i < text.data.length →
        viiOccursAt text.data i = true →
        viiAdjacentWord text.data i = true) →
      matches_keyword_with_word_boundary "vii" text = false) ∧
    (∀ i, viiOccursAt text.data i = true →
      viiAdjacentWord text.data i = false →
      matches_keyword_with_word_boundary "vii" text = true) := by
  constructor
  · intro hyp
    rw [matchesKW_vii_eq, List.any_eq_false]
    intro i hi
    by_cases hocc : viiOccursAt text.data i = true
    · have hlt : i < text.data.length := by
        have := viiOccursAt_le hocc
        omega
      have hadj := hyp i hlt hocc
      simp [hocc, hadj]
    · simp only [Bool.not_eq_true] at hocc
      simp [hocc]
  · intro i hocc hadj
    rw [matchesKW_vii_eq, List.any_eq_true]
    refine ⟨i, ?_, ?_⟩
    · rw [List.mem_range]
      have := viiOccursAt_le hocc
      omega
    · simp [hocc, hadj]

/-- **C9, witness**: `vii` inside `viitoare` is not matched; `vii` inside
`Photo (vii) credit` is matched. -/
theorem c9_vii_word_boundary_witness :
    matches_keyword_with_word_boundary "vii" "viitoare" = false ∧
    matches_keyword_with_word_boundary "vii" "Photo (vii) credit" = true :=
  ⟨(c9_vii_word_boundary "viitoare").1 (by decide),
   (c9_vii_word_boundary "Photo (vii) credit").2 7 (by decide) (by decide)⟩
